import Mathlib

/-!
Verification of the monitoring core of the website-down-tracker repository:
a shallow embedding of the anomaly-detection engine (`src/lib/anomaly-detector.ts`),
the Slack notification dispatcher (`src/lib/slack-notifier.ts`) and the
redirect-following prober / scheduler (`check-engine`), together with theorems
settling the specification claims about them.

Modeling conventions:
- JavaScript numbers are modeled as exact rationals (`Rat`) where fractional
  arithmetic occurs (rolling averages) and as `Int`/`Nat` elsewhere;
- nullable columns become `Option` types; JavaScript truthiness of nullable
  booleans, strings and numbers is modeled explicitly where the source relies
  on it;
- database rows are explicit structures, in-memory `Map`s are association
  lists with JavaScript `Map` semantics;
- the wall clock is an explicit `now : Int` parameter (milliseconds);
- network responses during a probe are a function from URL to response, and
  responses are modeled as instantaneous (so the shared timeout deadline of
  `performCheck` never fires inside a theorem).
-/

namespace WDT

/-- Anomaly severity, the `Severity` union type of the detector. -/
inductive Severity where
  | low
  | medium
  | high
  | critical
deriving DecidableEq, Repr

/-- Numeric severity ranks, mirroring the `SEVERITY_LEVELS` record of the
detector (low 0, medium 1, high 2, critical 3). -/
def SEVERITY_LEVELS : Severity → Nat
  | .low => 0
  | .medium => 1
  | .high => 2
  | .critical => 3

/-- The six anomaly types of the detector's `AnomalyType` union. -/
inductive AnomalyType where
  | downtime
  | slow_response
  | status_code
  | content_change
  | ssl_issue
  | header_anomaly
deriving DecidableEq, Repr

/-- An `AnomalyRecord` as assembled by `detectAnomalies` (the `createdAt`
column is filled in by the database default on insert). -/
structure AnomalyRecord where
  checkId : Nat
  siteId : Nat
  type : AnomalyType
  description : String
  severity : Severity
deriving DecidableEq, Repr

/-- A headers snapshot at the JSON-object level: the ordered key/value pairs
stored by the prober. Node has already joined multi-valued headers, so values
are plain strings. -/
abbrev HeadersObj := List (String × String)

/-- Embedding of `parseHeaders`: lower-cases every key of the parsed snapshot
object (the `", "`-join of array values is the identity on the already
flattened string values). -/
def parseHeaders (snapshot : HeadersObj) : HeadersObj :=
  snapshot.map (fun kv => (kv.1.toLower, kv.2))

/-- Reading `flat[key]` from a JavaScript object built by repeated assignment:
the last assignment to a key wins. -/
def objGet (obj : HeadersObj) (key : String) : Option String :=
  (obj.reverse.find? (fun kv => kv.1 == key)).map (fun kv => kv.2)

/-- A row of the `checks` table as the detector reads it (`src/db/schema.ts`
plus the later `error_code` / `ssl_certificate` / `redirect_chain`
migrations; only the columns the detector consumes are carried). `isUp` is a
nullable boolean column. -/
structure Check where
  id : Nat
  siteId : Nat
  statusCode : Option Int
  responseTimeMs : Option Rat
  isUp : Option Bool
  errorMessage : Option String
  headersSnapshot : Option HeadersObj
  bodyHash : Option String
  sslValid : Option Bool
  sslExpiry : Option Int
  checkedAt : Int
deriving DecidableEq, Repr

/-- A row of the `sites` table (the fields the core reads). -/
structure Site where
  id : Nat
  url : String
  name : String
  isActive : Bool
deriving DecidableEq, Repr

/-- A row of the `site_settings` table (all override columns nullable). -/
structure SiteSettingsRow where
  siteId : Nat
  responseTimeThreshold : Option Rat
  sslExpiryWarningDays : Option Int
  checkInterval : Option Int
  notifyDowntime : Option Bool
  notifySlowResponse : Option Bool
  notifyStatusCode : Option Bool
  notifyContentChange : Option Bool
  notifySslIssue : Option Bool
  notifyHeaderAnomaly : Option Bool
  severityThreshold : Option Severity
  escalationThreshold : Option Int
deriving DecidableEq, Repr

def ROLLING_AVERAGE_WINDOW : Nat := 10

def DEFAULT_SLOW_RESPONSE_MULTIPLIER : Rat := 2

def DEFAULT_SSL_EXPIRY_WARNING_DAYS : Int := 7

/-- Embedding of the `NOTIFY_TYPE_FIELDS` reflective field lookup: maps an
anomaly type to the per-site toggle column gating it. -/
def NOTIFY_TYPE_FIELDS (overrides : SiteSettingsRow) : AnomalyType → Option Bool
  | .downtime => overrides.notifyDowntime
  | .slow_response => overrides.notifySlowResponse
  | .status_code => overrides.notifyStatusCode
  | .content_change => overrides.notifyContentChange
  | .ssl_issue => overrides.notifySslIssue
  | .header_anomaly => overrides.notifyHeaderAnomaly

/-- Embedding of `shouldNotify`: no settings row notifies everything; a type
toggle blocks only on explicit `false`; otherwise the severity is compared
numerically against the configured floor (default `low`). -/
def shouldNotify (overrides : Option SiteSettingsRow) (anomalyType : AnomalyType)
    (severity : Severity) : Bool :=
  match overrides with
  | none => true
  | some o =>
    if NOTIFY_TYPE_FIELDS o anomalyType == some false then false
    else decide (SEVERITY_LEVELS (o.severityThreshold.getD Severity.low) ≤ SEVERITY_LEVELS severity)

/-- JavaScript truthiness of a nullable boolean column: only `true` is truthy
(`null` and `false` are falsy). -/
def jsTruthy : Option Bool → Bool
  | some true => true
  | _ => false

/-- Model of `String.prototype.startsWith` (the `site.url.startsWith`
test of rule 5), computed on the character lists so that it evaluates on
concrete inputs. -/
def strStartsWith (s pre : String) : Bool := pre.toList.isPrefixOf s.toList

/-- Rule 1 of `detectAnomalies`: downtime on an unreachable site or a 5xx
response. An empty `errorMessage` string is falsy in the source's ternary. -/
def detectDowntime (checkId siteId : Nat) (current : Check) : List AnomalyRecord :=
  if jsTruthy current.isUp then []
  else
    match current.statusCode with
    | some c =>
      if 500 ≤ c then
        [{ checkId := checkId, siteId := siteId, type := AnomalyType.downtime,
           description := "server error: HTTP " ++ toString c,
           severity := Severity.critical }]
      else []
    | none =>
      [{ checkId := checkId, siteId := siteId, type := AnomalyType.downtime,
         description :=
           match current.errorMessage with
           | some m => if m == "" then "site unreachable" else "site unreachable: " ++ m
           | none => "site unreachable",
         severity := Severity.critical }]

/-- Rule 2 of `detectAnomalies`: slow response against the per-site absolute
threshold when one is configured, otherwise against twice the mean of the
non-null historical response times of the rolling window. -/
def detectSlowResponse (checkId siteId : Nat) (current : Check)
    (history : List Check) (overrides : Option SiteSettingsRow) : List AnomalyRecord :=
  match current.responseTimeMs with
  | none => []
  | some rt =>
    match overrides.bind (fun o => o.responseTimeThreshold) with
    | some threshold =>
      if threshold < rt then
        [{ checkId := checkId, siteId := siteId, type := AnomalyType.slow_response,
           description := "response time " ++ toString rt ++ "ms exceeds threshold ("
             ++ toString threshold ++ "ms)",
           severity := if threshold * 2 < rt then Severity.high else Severity.medium }]
      else []
    | none =>
      if history.length > 0 then
        let historicalTimes := history.filterMap (fun c => c.responseTimeMs)
        if historicalTimes.length > 0 then
          let avg := historicalTimes.sum / (historicalTimes.length : Rat)
          let threshold := avg * DEFAULT_SLOW_RESPONSE_MULTIPLIER
          if threshold < rt then
            [{ checkId := checkId, siteId := siteId, type := AnomalyType.slow_response,
               description := "response time " ++ toString rt
                 ++ "ms exceeds 2x rolling average (" ++ toString (round avg) ++ "ms)",
               severity := if avg * 4 < rt then Severity.high else Severity.medium }]
          else []
        else []
      else []

/-- Rule 3 of `detectAnomalies`: unexpected status codes, 4xx (401/403 high,
others medium) and 3xx (low). -/
def detectStatusCode (checkId siteId : Nat) (current : Check) : List AnomalyRecord :=
  match current.statusCode with
  | none => []
  | some c =>
    if 400 ≤ c ∧ c < 500 then
      [{ checkId := checkId, siteId := siteId, type := AnomalyType.status_code,
         description := "client error: HTTP " ++ toString c,
         severity := if c = 401 ∨ c = 403 then Severity.high else Severity.medium }]
    else if 300 ≤ c ∧ c < 400 then
      [{ checkId := checkId, siteId := siteId, type := AnomalyType.status_code,
         description := "redirect: HTTP " ++ toString c,
         severity := Severity.low }]
    else []

/-- Rule 4 of `detectAnomalies`: content change against the most recent prior
check that carries a body hash. -/
def detectContentChange (checkId siteId : Nat) (current : Check)
    (history : List Check) : List AnomalyRecord :=
  match current.bodyHash with
  | none => []
  | some h =>
    if history.length > 0 then
      match history.find? (fun c => c.bodyHash.isSome) with
      | some lastWithHash =>
        if lastWithHash.bodyHash ≠ some h then
          [{ checkId := checkId, siteId := siteId, type := AnomalyType.content_change,
             description := "response body content changed since last check",
             severity := Severity.low }]
        else []
      | none => []
    else []

/-- Rule 5 of `detectAnomalies`: SSL issues on https sites — invalid
certificate (critical) and, independently, expiry within the warning window
(critical when already expired, high otherwise). Days until expiry are the
floor of the millisecond difference divided by one day. -/
def detectSslIssues (checkId siteId : Nat) (current : Check) (site : Site)
    (sslExpiryWarningDays : Int) (now : Int) : List AnomalyRecord :=
  if strStartsWith site.url "https://" then
    (if current.sslValid == some false then
      [{ checkId := checkId, siteId := siteId, type := AnomalyType.ssl_issue,
         description := "ssl certificate is invalid",
         severity := Severity.critical }]
     else []) ++
    (match current.sslExpiry with
     | none => []
     | some expiry =>
       let daysUntilExpiry := (expiry - now).fdiv (1000 * 60 * 60 * 24)
       if daysUntilExpiry ≤ 0 then
         [{ checkId := checkId, siteId := siteId, type := AnomalyType.ssl_issue,
            description := "ssl certificate expired " ++ toString daysUntilExpiry.natAbs
              ++ " days ago",
            severity := Severity.critical }]
       else if daysUntilExpiry ≤ sslExpiryWarningDays then
         [{ checkId := checkId, siteId := siteId, type := AnomalyType.ssl_issue,
            description := "ssl certificate expires in " ++ toString daysUntilExpiry
              ++ " days",
            severity := Severity.high }]
       else [])
  else []

/-- The fixed list of security-relevant header names compared by rule 6. -/
def SECURITY_HEADERS : List String :=
  ["strict-transport-security", "content-security-policy", "x-content-type-options",
   "x-frame-options", "x-xss-protection", "referrer-policy", "permissions-policy"]

/-- Rule 6 of `detectAnomalies`: security headers removed (one high record
listing all removed names) or changed (one medium record listing all changed
names), against the most recent prior check with a headers snapshot. -/
def detectHeaderAnomalies (checkId siteId : Nat) (current : Check)
    (history : List Check) : List AnomalyRecord :=
  match current.headersSnapshot with
  | none => []
  | some snap =>
    if history.length > 0 then
      match history.find? (fun c => c.headersSnapshot.isSome) with
      | none => []
      | some lastWithHeaders =>
        let currentHeaders := parseHeaders snap
        let previousHeaders := parseHeaders (lastWithHeaders.headersSnapshot.getD [])
        let removedHeaders := SECURITY_HEADERS.filter (fun h =>
          (objGet previousHeaders h).isSome && (objGet currentHeaders h).isNone)
        let changedHeaders := SECURITY_HEADERS.filter (fun h =>
          match objGet previousHeaders h, objGet currentHeaders h with
          | some prev, some curr => prev != curr
          | _, _ => false)
        (if removedHeaders.length > 0 then
          [{ checkId := checkId, siteId := siteId, type := AnomalyType.header_anomaly,
             description := "security headers removed: "
               ++ String.intercalate ", " removedHeaders,
             severity := Severity.high }]
         else []) ++
        (if changedHeaders.length > 0 then
          [{ checkId := checkId, siteId := siteId, type := AnomalyType.header_anomaly,
             description := "security headers changed: "
               ++ String.intercalate ", " changedHeaders,
             severity := Severity.medium }]
         else [])
    else []

/-- The rule-evaluation core of `detectAnomalies`, given the loaded current
check, rolling-window history (newest first, current excluded), site row and
optional settings row. The database loads that produce these inputs and the
subsequent insert / notification loop are orchestration around this list. -/
def detectAnomalies (checkId siteId : Nat) (current : Check) (history : List Check)
    (site : Site) (overrides : Option SiteSettingsRow) (now : Int) : List AnomalyRecord :=
  let sslExpiryWarningDays :=
    (overrides.bind (fun o => o.sslExpiryWarningDays)).getD DEFAULT_SSL_EXPIRY_WARNING_DAYS
  detectDowntime checkId siteId current ++
  detectSlowResponse checkId siteId current history overrides ++
  detectStatusCode checkId siteId current ++
  detectContentChange checkId siteId current history ++
  detectSslIssues checkId siteId current site sslExpiryWarningDays now ++
  detectHeaderAnomalies checkId siteId current history

/-! ## Notification dispatcher (`src/lib/slack-notifier.ts`) -/

/-- The `settings` key/value table (string keys, non-null string values). -/
abbrev SettingsTable := List (String × String)

/-- The in-memory rate-limit `Map`, keyed by `"siteId:anomalyType"`, holding
the millisecond timestamp of the last non-suppressed dispatch attempt. -/
abbrev RateLimitMap := List (String × Int)

def RATE_LIMIT_MS : Int := 5 * 60 * 1000

/-- JavaScript `Map.get`. -/
def mapGet (m : RateLimitMap) (k : String) : Option Int :=
  (m.find? (fun e => e.1 == k)).map (fun e => e.2)

/-- JavaScript `Map.set`: replaces the value at an existing key in place,
otherwise appends a fresh entry. -/
def mapSet (m : RateLimitMap) (k : String) (v : Int) : RateLimitMap :=
  if (m.find? (fun e => e.1 == k)).isSome then
    m.map (fun e => if e.1 == k then (k, v) else e)
  else m ++ [(k, v)]

/-- The rate-limit key, the template literal `` `${siteId}:${anomalyType}` ``. -/
def rateLimitKey (siteId : Nat) (anomalyType : String) : String :=
  toString siteId ++ ":" ++ anomalyType

/-- Embedding of `isRateLimited`: returns the limited flag together with the
map after the call. A stored timestamp is truthy only when nonzero (the
source tests `last &&`); on the suppressed path the function returns before
the `set`, so the map is returned unchanged there. -/
def isRateLimited (now : Int) (m : RateLimitMap) (siteId : Nat)
    (anomalyType : String) : Bool × RateLimitMap :=
  let key := rateLimitKey siteId anomalyType
  match mapGet m key with
  | some last =>
    if last ≠ 0 ∧ now - last < RATE_LIMIT_MS then (true, m)
    else (false, mapSet m key now)
  | none => (false, mapSet m key now)

/-- Embedding of `getWebhookUrl`: the value stored under the
`slack_webhook_url` settings key, if a row exists. -/
def getWebhookUrl (table : SettingsTable) : Option String :=
  (table.find? (fun e => e.1 == "slack_webhook_url")).map (fun e => e.2)

/-- The notification payload handed to `notifyAnomaly`. -/
structure AnomalyNotification where
  siteName : String
  siteUrl : String
  anomalyType : String
  description : String
  severity : String
  timestamp : Int
  siteId : Nat
  escalated : Option Bool
deriving DecidableEq, Repr

/-- What a `notifyAnomaly` call did. -/
inductive NotifyOutcome where
  | skippedNoWebhook
  | skippedRateLimited
  | posted (webhookUrl : String)
deriving DecidableEq, Repr

/-- Embedding of `notifyAnomaly` up to the outbound POST: a missing (or
falsy, i.e. empty) webhook URL returns before the rate-limit check; a
rate-limited attempt returns before the POST; otherwise the payload is
POSTed to the configured URL (delivery failures are logged only and do not
change either result). Returns the rate-limit map after the call and the
outcome. -/
def notifyAnomaly (table : SettingsTable) (now : Int) (m : RateLimitMap)
    (n : AnomalyNotification) : RateLimitMap × NotifyOutcome :=
  match getWebhookUrl table with
  | none => (m, NotifyOutcome.skippedNoWebhook)
  | some url =>
    if url == "" then (m, NotifyOutcome.skippedNoWebhook)
    else
      let r := isRateLimited now m n.siteId n.anomalyType
      if r.1 then (r.2, NotifyOutcome.skippedRateLimited)
      else (r.2, NotifyOutcome.posted url)

/-! ## Prober (`performCheck` / `singleRequest` of the check engine) -/

/-- Error data of a JavaScript exception escaping a function; `invalidUrl`
models the `TypeError` (ERR_INVALID_URL) thrown by `new URL` on input that
does not parse. -/
inductive JsError where
  | invalidUrl (input : String)
deriving DecidableEq, Repr

def MAX_REDIRECTS : Nat := 5

def CHECK_TIMEOUT_MS : Int := 10000

/-- One hop of the recorded redirect chain. -/
structure RedirectHop where
  url : String
  statusCode : Int
deriving DecidableEq, Repr

/-- The `CheckResult` assembled by `performCheck` (without `siteId`). The
`redirectChain` is kept at the list level (the source serializes it to JSON
on the way into the row). -/
structure ProbeResult where
  statusCode : Option Int
  responseTimeMs : Option Int
  isUp : Bool
  errorMessage : Option String
  errorCode : Option String
  headersSnapshot : Option HeadersObj
  bodyHash : Option String
  sslValid : Option Bool
  sslExpiry : Option Int
  sslCertificate : Option String
  redirectChain : Option (List RedirectHop)
deriving DecidableEq, Repr

/-- Peer-certificate data readable from a TLS response socket. `validTo` is
`none` when the certificate object is missing its `valid_to` field, and
`info` stands for the serialized certificate summary. -/
structure PeerCert where
  validTo : Option Int
  authorized : Option Bool
  info : String
deriving DecidableEq, Repr

/-- What `singleRequest` resolves with for one URL: status, headers, body,
an optional readable peer certificate (standing for the response socket),
and optionally the transport error it reported instead. -/
structure SingleResult where
  statusCode : Option Int
  headers : HeadersObj
  body : String
  cert : Option PeerCert
  error : Option (String × Option String)
deriving DecidableEq, Repr

/-- Characters allowed after the first character of a URL scheme. -/
def isSchemeChar (c : Char) : Bool :=
  c.isAlpha || c.isDigit || c == '+' || c == '-' || c == '.'

/-- Model of WHATWG URL parsing, reduced to what the prober depends on: a URL
string parses iff it starts with a scheme (an ASCII letter followed by scheme
characters) and a colon. `new URL` throws on anything else. -/
def urlScheme (s : String) : Option String :=
  let pre := s.toList.takeWhile (fun c => c != ':')
  if pre.length < s.toList.length then
    match pre with
    | [] => none
    | c :: rest =>
      if c.isAlpha && rest.all isSchemeChar then some (String.mk pre) else none
  else none

/-- Whether `new URL(s).protocol === "https:"` (schemes are lower-cased by
the URL parser). -/
def urlIsHttps (s : String) : Bool :=
  match urlScheme s with
  | some sch => sch.toLower == "https"
  | none => false

/-- Reading `headers.location` from a node `IncomingHttpHeaders` object
(node keeps the first occurrence of singleton headers). -/
def headersLocation (hs : HeadersObj) : Option String :=
  (hs.find? (fun kv => kv.1 == "location")).map (fun kv => kv.2)

/-- Model of `new URL(location, currentUrl).href`: an absolute location (one
carrying its own scheme) replaces the current URL; a relative location is
resolved against the base, modeled as concatenation (the base has always
parsed on this code path). -/
def resolveLocation (location base : String) : String :=
  if (urlScheme location).isSome then location else base ++ location

/-- Embedding of `singleRequest`: the synchronous `new URL(url)` inside the
promise executor rejects the promise on a malformed URL; otherwise the
request runs and the promise always resolves with the network's response
for the URL (transport errors resolve via the `error` field). -/
def singleRequest (net : String → SingleResult) (url : String) :
    Except JsError SingleResult :=
  match urlScheme url with
  | none => Except.error (JsError.invalidUrl url)
  | some _ => Except.ok (net url)

/-- The `redirectChain` column value: the chain when non-empty, else null. -/
def emptyChainOpt (chain : List RedirectHop) : Option (List RedirectHop) :=
  if chain.length > 0 then some chain else none

/-- The final-response return of `performCheck`: body hash, derived `isUp`,
headers snapshot and best-effort SSL extraction when the final URL is https
and a certificate with a `valid_to` is readable (`sslValid` is
`authorized !== false`). -/
def finalResult (hash : String → String) (currentUrl : String)
    (result : SingleResult) (chain : List RedirectHop) : ProbeResult :=
  let sslInfo : Option Bool × Option Int × Option String :=
    if urlIsHttps currentUrl then
      match result.cert with
      | some cert =>
        match cert.validTo with
        | some vt => (some (decide (cert.authorized ≠ some false)), some vt, some cert.info)
        | none => (none, none, none)
      | none => (none, none, none)
    else (none, none, none)
  { statusCode := result.statusCode,
    responseTimeMs := some 0,
    isUp := match result.statusCode with | some c => decide (c < 500) | none => false,
    errorMessage := none,
    errorCode := none,
    headersSnapshot := some result.headers,
    bodyHash := some (hash result.body),
    sslValid := sslInfo.1,
    sslExpiry := sslInfo.2.1,
    sslCertificate := sslInfo.2.2,
    redirectChain := emptyChainOpt chain }

/-- The redirect-following loop of `performCheck`. The source iterates `hop`
from 0 to `MAX_REDIRECTS` inclusive; here `fuel = MAX_REDIRECTS + 1 - hop`,
so the `hop === MAX_REDIRECTS` cap test is `fuel = 1` and `fuel = 0` is the
fallthrough return after the loop. Responses are modeled as instantaneous,
so the shared-deadline (`remainingMs <= 0`) early return never fires and all
durations are 0. The loop-detection test runs before the request of each
iteration, exactly as in the source. -/
def performCheckGo (net : String → SingleResult) (hash : String → String) :
    Nat → List String → List RedirectHop → String → Except JsError ProbeResult
  | 0, _, chain, _ =>
    Except.ok
      { statusCode := none, responseTimeMs := some 0, isUp := false,
        errorMessage := some ("too many redirects (>" ++ toString MAX_REDIRECTS ++ ")"),
        errorCode := some "TOO_MANY_REDIRECTS", headersSnapshot := none, bodyHash := none,
        sslValid := none, sslExpiry := none, sslCertificate := none,
        redirectChain := emptyChainOpt chain }
  | fuel + 1, visited, chain, currentUrl =>
    if visited.contains currentUrl then
      Except.ok
        { statusCode := none, responseTimeMs := some 0, isUp := false,
          errorMessage := some ("redirect loop detected: " ++ currentUrl ++ " already visited"),
          errorCode := some "REDIRECT_LOOP", headersSnapshot := none, bodyHash := none,
          sslValid := none, sslExpiry := none, sslCertificate := none,
          redirectChain := emptyChainOpt chain }
    else
      match singleRequest net currentUrl with
      | Except.error e => Except.error e
      | Except.ok result =>
        match result.error with
        | some err =>
          Except.ok
            { statusCode := result.statusCode, responseTimeMs := some 0,
              isUp := false, errorMessage := some err.1, errorCode := err.2,
              headersSnapshot := none, bodyHash := none, sslValid := none,
              sslExpiry := none, sslCertificate := none,
              redirectChain := emptyChainOpt chain }
        | none =>
          match result.statusCode with
          | none => Except.ok (finalResult hash currentUrl result chain)
          | some status =>
            match headersLocation result.headers with
            | none => Except.ok (finalResult hash currentUrl result chain)
            | some loc =>
              if 300 ≤ status ∧ status < 400 ∧ loc ≠ "" then
                let chain2 := chain ++ [{ url := currentUrl, statusCode := status }]
                if fuel = 0 then
                  Except.ok
                    { statusCode := some status, responseTimeMs := some 0,
                      isUp := false,
                      errorMessage := some ("too many redirects (>"
                        ++ toString MAX_REDIRECTS ++ ")"),
                      errorCode := some "TOO_MANY_REDIRECTS", headersSnapshot := none,
                      bodyHash := none, sslValid := none, sslExpiry := none,
                      sslCertificate := none, redirectChain := some chain2 }
                else
                  performCheckGo net hash fuel (currentUrl :: visited) chain2
                    (resolveLocation loc currentUrl)
              else Except.ok (finalResult hash currentUrl result chain)

/-- Embedding of `performCheck(url)`: follow redirects from `url` with an
empty visited set and chain and the full hop budget. The result is `ok` with
a `CheckResult` when the probe resolves, and `error` when a JavaScript
exception escapes (rejecting the promise). -/
def performCheck (net : String → SingleResult) (hash : String → String)
    (url : String) : Except JsError ProbeResult :=
  performCheckGo net hash (MAX_REDIRECTS + 1) [] [] url

/-! ## Scheduler tick (`runChecks` of the check engine) -/

/-- The persistent store as `runChecks` sees it. -/
structure DB where
  sites : List Site
  checks : List Check
  siteSettings : List SiteSettingsRow
deriving Repr

/-- Embedding of `runChecks`: reads the active sites and, unless there are
none, probes every one of them and inserts one `Check` row per site (the
row is the probe result tagged with the site id; the generated row id,
`checkedAt` default and the per-site `detectAnomalies` call that follows
each insert do not affect which sites are probed). Returns the tick's result
count and the inserted (siteId, probe result) rows. -/
def runChecks (db : DB) (probe : String → ProbeResult) :
    Nat × List (Nat × ProbeResult) :=
  let activeSites := db.sites.filter (fun s => s.isActive)
  if activeSites.length = 0 then (0, [])
  else (activeSites.length, activeSites.map (fun s => (s.id, probe s.url)))

/-- The most recent recorded check time for a site, if any. -/
def lastCheckedAt (db : DB) (siteId : Nat) : Option Int :=
  ((db.checks.filter (fun c => c.siteId == siteId)).map (fun c => c.checkedAt)).max?

/-- The per-site (or default 60s) check interval for a site, in ms. -/
def siteCheckIntervalMs (db : DB) (siteId : Nat) : Int :=
  1000 * (((db.siteSettings.find? (fun r => r.siteId == siteId)).bind
    (fun r => r.checkInterval)).getD 60)

/-- Modelled from the spec: the due-site policy — a site is due for a check
when its per-site (or default 60s) interval has elapsed since its last
recorded check, and a never-checked site is due. This is the filter the
spec (and the repository's check-interval tests) prescribe for `runChecks`;
it is stated separately so that theorems can compare `runChecks` against
it. -/
def specSiteIsDue (db : DB) (s : Site) (now : Int) : Bool :=
  match lastCheckedAt db s.id with
  | none => true
  | some t => decide (siteCheckIntervalMs db s.id ≤ now - t)

/-! ## Helper lemmas about the detector rules -/

theorem mem_detectDowntime_type {checkId siteId : Nat} {current : Check} :
    ∀ a ∈ detectDowntime checkId siteId current, a.type = AnomalyType.downtime := by
  intro a ha
  simp only [detectDowntime] at ha
  repeat' split at ha
  all_goals simp_all [List.mem_append]

theorem mem_detectSlowResponse_type {checkId siteId : Nat} {current : Check}
    {history : List Check} {overrides : Option SiteSettingsRow} :
    ∀ a ∈ detectSlowResponse checkId siteId current history overrides,
      a.type = AnomalyType.slow_response := by
  intro a ha
  simp only [detectSlowResponse] at ha
  repeat' split at ha
  all_goals simp_all [List.mem_append]

theorem mem_detectStatusCode_type {checkId siteId : Nat} {current : Check} :
    ∀ a ∈ detectStatusCode checkId siteId current, a.type = AnomalyType.status_code := by
  intro a ha
  simp only [detectStatusCode] at ha
  repeat' split at ha
  all_goals simp_all [List.mem_append]

theorem mem_detectContentChange_type {checkId siteId : Nat} {current : Check}
    {history : List Check} :
    ∀ a ∈ detectContentChange checkId siteId current history,
      a.type = AnomalyType.content_change := by
  intro a ha
  simp only [detectContentChange] at ha
  repeat' split at ha
  all_goals simp_all [List.mem_append]

theorem mem_detectSslIssues_type {checkId siteId : Nat} {current : Check} {site : Site}
    {warningDays now : Int} :
    ∀ a ∈ detectSslIssues checkId siteId current site warningDays now,
      a.type = AnomalyType.ssl_issue := by
  intro a ha
  simp only [detectSslIssues] at ha
  repeat' split at ha
  all_goals simp_all [List.mem_append]
  all_goals rcases ha with rfl | rfl
  all_goals rfl

theorem mem_detectHeaderAnomalies_type {checkId siteId : Nat} {current : Check}
    {history : List Check} :
    ∀ a ∈ detectHeaderAnomalies checkId siteId current history,
      a.type = AnomalyType.header_anomaly := by
  intro a ha
  simp only [detectHeaderAnomalies] at ha
  repeat' split at ha
  all_goals simp_all [List.mem_append]
  all_goals rcases ha with rfl | rfl
  all_goals rfl

theorem filter_type_eq_nil {l : List AnomalyRecord} {t : AnomalyType}
    (h : ∀ a ∈ l, a.type ≠ t) : l.filter (fun a => a.type == t) = [] := by
  rw [List.filter_eq_nil_iff]
  intro a ha
  simpa using h a ha

theorem any_type_eq_false {l : List AnomalyRecord} {t : AnomalyType}
    (h : ∀ a ∈ l, a.type ≠ t) : l.any (fun a => a.type == t) = false := by
  rw [List.any_eq_false]
  intro a ha
  simpa using h a ha

theorem mem_detectDowntime_status {checkId siteId : Nat} {current : Check}
    {a : AnomalyRecord} (ha : a ∈ detectDowntime checkId siteId current) :
    current.statusCode = none ∨ ∃ c, current.statusCode = some c ∧ 500 ≤ c := by
  simp only [detectDowntime] at ha
  repeat' split at ha
  all_goals simp_all

theorem mem_detectStatusCode_status {checkId siteId : Nat} {current : Check}
    {a : AnomalyRecord} (ha : a ∈ detectStatusCode checkId siteId current) :
    ∃ c, current.statusCode = some c ∧ 300 ≤ c ∧ c < 500 := by
  simp only [detectStatusCode] at ha
  repeat' split at ha
  all_goals simp_all
  all_goals omega

/-! ## Claim theorems -/

/-- C8: for every detected anomaly, notification eligibility holds exactly
when the site has no settings row (then everything is eligible), or the
per-type toggle is not explicitly false (absent counts as enabled) and the
anomaly's severity reaches the configured floor (default low), compared
through the numeric total order low < medium < high < critical. -/
theorem c8_notification_eligibility (overrides : Option SiteSettingsRow)
    (t : AnomalyType) (s : Severity) :
    (shouldNotify overrides t s = true ↔
      (overrides = none ∨ ∃ o, overrides = some o ∧
        NOTIFY_TYPE_FIELDS o t ≠ some false ∧
        SEVERITY_LEVELS (o.severityThreshold.getD Severity.low) ≤ SEVERITY_LEVELS s)) ∧
    SEVERITY_LEVELS Severity.low < SEVERITY_LEVELS Severity.medium ∧
    SEVERITY_LEVELS Severity.medium < SEVERITY_LEVELS Severity.high ∧
    SEVERITY_LEVELS Severity.high < SEVERITY_LEVELS Severity.critical := by
  refine ⟨?_, by decide, by decide, by decide⟩
  cases overrides with
  | none => simp [shouldNotify]
  | some o =>
    constructor
    · intro h
      simp only [shouldNotify] at h
      split at h
      · exact absurd h (by simp)
      · rename_i hb
        exact Or.inr ⟨o, rfl, by simpa using hb, by simpa using h⟩
    · rintro (h | ⟨o2, ho, hb, hs⟩)
      · exact absurd h (by simp)
      · obtain rfl : o = o2 := by injection ho
        simp only [shouldNotify]
        split
        · rename_i hb2
          exact absurd (by simpa using hb2) hb
        · simpa using hs

/-- C9: when no outbound webhook URL is configured in the settings store,
`notifyAnomaly` returns before consulting or updating the rate-limit state:
the map is returned unchanged, so no suppression window starts or extends. -/
theorem c9_no_webhook_leaves_rate_limit_untouched (table : SettingsTable)
    (now : Int) (m : RateLimitMap) (n : AnomalyNotification)
    (h : getWebhookUrl table = none) :
    notifyAnomaly table now m n = (m, NotifyOutcome.skippedNoWebhook) := by
  simp [notifyAnomaly, h]

/-- Witness for C9 at a concrete input: empty settings table, pre-existing
rate-limit entry, which the call leaves untouched. -/
theorem c9_no_webhook_leaves_rate_limit_untouched_witness :
    getWebhookUrl [] = none ∧
    notifyAnomaly [] 12345 [("7:downtime", 100)]
      { siteName := "s", siteUrl := "https://s.example", anomalyType := "downtime",
        description := "d", severity := "critical", timestamp := 12345, siteId := 7,
        escalated := none } =
      ([("7:downtime", 100)], NotifyOutcome.skippedNoWebhook) :=
  ⟨rfl, c9_no_webhook_leaves_rate_limit_untouched [] 12345 [("7:downtime", 100)] _ rfl⟩

/-- A concrete notification payload used by the C2 theorems (siteId 7, type
downtime). -/
def sampleNotification : AnomalyNotification :=
  { siteName := "example", siteUrl := "https://example.com",
    anomalyType := "downtime", description := "server error: HTTP 503",
    severity := "critical", timestamp := 160000, siteId := 7, escalated := none }

/-- C2 counterexample: with the marker for key "7:downtime" recorded at
100000 ms and a webhook configured, a dispatch attempt at 160000 ms (60 s
later, inside the 5-minute window) is suppressed — but the marker afterwards
still reads 100000 ms, not the suppressed attempt's time 160000 ms, refuting
the claim that the suppressed attempt refreshes the marker. -/
theorem c2_counterexample :
    (notifyAnomaly [("slack_webhook_url", "https://hooks.example/T/B")] 160000
        [("7:downtime", 100000)] sampleNotification).2 = NotifyOutcome.skippedRateLimited ∧
    mapGet (notifyAnomaly [("slack_webhook_url", "https://hooks.example/T/B")] 160000
        [("7:downtime", 100000)] sampleNotification).1 "7:downtime" = some 100000 ∧
    (100000 : Int) ≠ 160000 :=
  ⟨rfl, rfl, by decide⟩

/-- C2 (amended): a dispatch attempt for a (siteId, anomalyType) key arriving
less than 5 minutes after the key's recorded (nonzero) last attempt sends no
webhook call, and leaves the key's last-attempt marker — and the whole
rate-limit map — unchanged: the suppressed attempt does not refresh the
marker, so the window keeps running from the last non-suppressed attempt. -/
theorem c2_rate_limited_attempt_is_noop (table : SettingsTable) (now : Int)
    (m : RateLimitMap) (n : AnomalyNotification) (url : String) (last : Int)
    (hurl : getWebhookUrl table = some url) (hne : url ≠ "")
    (hlast : mapGet m (rateLimitKey n.siteId n.anomalyType) = some last)
    (h0 : last ≠ 0) (hwin : now - last < RATE_LIMIT_MS) :
    notifyAnomaly table now m n = (m, NotifyOutcome.skippedRateLimited) := by
  have hr : isRateLimited now m n.siteId n.anomalyType = (true, m) := by
    simp only [isRateLimited, hlast]
    rw [if_pos ⟨h0, hwin⟩]
  simp [notifyAnomaly, hurl, hr, hne]

/-- Witness for C2 (amended) at the concrete input of the counterexample. -/
theorem c2_rate_limited_attempt_is_noop_witness :
    getWebhookUrl [("slack_webhook_url", "https://hooks.example/T/B")] =
      some "https://hooks.example/T/B" ∧
    mapGet [("7:downtime", 100000)]
      (rateLimitKey sampleNotification.siteId sampleNotification.anomalyType) =
      some 100000 ∧
    (160000 : Int) - 100000 < RATE_LIMIT_MS ∧
    notifyAnomaly [("slack_webhook_url", "https://hooks.example/T/B")] 160000
        [("7:downtime", 100000)] sampleNotification =
      ([("7:downtime", 100000)], NotifyOutcome.skippedRateLimited) :=
  ⟨rfl, rfl, by decide,
    c2_rate_limited_attempt_is_noop _ 160000 _ sampleNotification
      "https://hooks.example/T/B" 100000 rfl (by decide) rfl (by decide) (by decide)⟩

/-- C10: for every single check, `detectAnomalies` never yields both a
downtime anomaly and a status_code anomaly: the downtime rule requires a
null or ≥ 500 status code while the status_code rule requires one in
[300, 499], so their preconditions are disjoint. -/
theorem c10_downtime_status_code_disjoint (checkId siteId : Nat) (current : Check)
    (history : List Check) (site : Site) (overrides : Option SiteSettingsRow)
    (now : Int) :
    (((detectAnomalies checkId siteId current history site overrides now).any
        (fun a => a.type == AnomalyType.downtime)) &&
     ((detectAnomalies checkId siteId current history site overrides now).any
        (fun a => a.type == AnomalyType.status_code))) = false := by
  rw [Bool.and_eq_false_iff]
  by_contra hcon
  push_neg at hcon
  obtain ⟨h1, h2⟩ := hcon
  rw [Bool.ne_false_iff] at h1 h2
  obtain ⟨a, ha, hat⟩ := List.any_eq_true.mp h1
  obtain ⟨b, hb, hbt⟩ := List.any_eq_true.mp h2
  rw [beq_iff_eq] at hat hbt
  simp only [detectAnomalies, List.mem_append] at ha hb
  have ha1 : a ∈ detectDowntime checkId siteId current := by
    rcases ha with ((((ha | ha) | ha) | ha) | ha) | ha
    · exact ha
    · exact absurd hat (by rw [mem_detectSlowResponse_type a ha]; decide)
    · exact absurd hat (by rw [mem_detectStatusCode_type a ha]; decide)
    · exact absurd hat (by rw [mem_detectContentChange_type a ha]; decide)
    · exact absurd hat (by rw [mem_detectSslIssues_type a ha]; decide)
    · exact absurd hat (by rw [mem_detectHeaderAnomalies_type a ha]; decide)
  have hb3 : b ∈ detectStatusCode checkId siteId current := by
    rcases hb with ((((hb | hb) | hb) | hb) | hb) | hb
    · exact absurd hbt (by rw [mem_detectDowntime_type b hb]; decide)
    · exact absurd hbt (by rw [mem_detectSlowResponse_type b hb]; decide)
    · exact hb
    · exact absurd hbt (by rw [mem_detectContentChange_type b hb]; decide)
    · exact absurd hbt (by rw [mem_detectSslIssues_type b hb]; decide)
    · exact absurd hbt (by rw [mem_detectHeaderAnomalies_type b hb]; decide)
  obtain ⟨c, hc, hc3, hc5⟩ := mem_detectStatusCode_status hb3
  rcases mem_detectDowntime_status ha1 with hnone | ⟨c2, hc2, h500⟩
  · rw [hnone] at hc
    exact absurd hc (by simp)
  · rw [hc2] at hc
    injection hc with hcc
    omega

theorem filter_downtime_eq (checkId siteId : Nat) (current : Check)
    (history : List Check) (site : Site) (overrides : Option SiteSettingsRow)
    (now : Int) :
    (detectAnomalies checkId siteId current history site overrides now).filter
      (fun a => a.type == AnomalyType.downtime) =
    (detectDowntime checkId siteId current).filter
      (fun a => a.type == AnomalyType.downtime) := by
  simp only [detectAnomalies, List.filter_append]
  rw [filter_type_eq_nil (l := detectSlowResponse checkId siteId current history overrides)
      (by intro a ha; rw [mem_detectSlowResponse_type a ha]; decide),
    filter_type_eq_nil (l := detectStatusCode checkId siteId current)
      (by intro a ha; rw [mem_detectStatusCode_type a ha]; decide),
    filter_type_eq_nil (l := detectContentChange checkId siteId current history)
      (by intro a ha; rw [mem_detectContentChange_type a ha]; decide),
    filter_type_eq_nil (l := detectSslIssues checkId siteId current site
        ((overrides.bind (fun o => o.sslExpiryWarningDays)).getD DEFAULT_SSL_EXPIRY_WARNING_DAYS) now)
      (by intro a ha; rw [mem_detectSslIssues_type a ha]; decide),
    filter_type_eq_nil (l := detectHeaderAnomalies checkId siteId current history)
      (by intro a ha; rw [mem_detectHeaderAnomalies_type a ha]; decide)]
  simp

theorem filter_slow_response_eq (checkId siteId : Nat) (current : Check)
    (history : List Check) (site : Site) (overrides : Option SiteSettingsRow)
    (now : Int) :
    (detectAnomalies checkId siteId current history site overrides now).filter
      (fun a => a.type == AnomalyType.slow_response) =
    (detectSlowResponse checkId siteId current history overrides).filter
      (fun a => a.type == AnomalyType.slow_response) := by
  simp only [detectAnomalies, List.filter_append]
  rw [filter_type_eq_nil (l := detectDowntime checkId siteId current)
      (by intro a ha; rw [mem_detectDowntime_type a ha]; decide),
    filter_type_eq_nil (l := detectStatusCode checkId siteId current)
      (by intro a ha; rw [mem_detectStatusCode_type a ha]; decide),
    filter_type_eq_nil (l := detectContentChange checkId siteId current history)
      (by intro a ha; rw [mem_detectContentChange_type a ha]; decide),
    filter_type_eq_nil (l := detectSslIssues checkId siteId current site
        ((overrides.bind (fun o => o.sslExpiryWarningDays)).getD DEFAULT_SSL_EXPIRY_WARNING_DAYS) now)
      (by intro a ha; rw [mem_detectSslIssues_type a ha]; decide),
    filter_type_eq_nil (l := detectHeaderAnomalies checkId siteId current history)
      (by intro a ha; rw [mem_detectHeaderAnomalies_type a ha]; decide)]
  simp

theorem filter_ssl_issue_eq (checkId siteId : Nat) (current : Check)
    (history : List Check) (site : Site) (overrides : Option SiteSettingsRow)
    (now : Int) :
    (detectAnomalies checkId siteId current history site overrides now).filter
      (fun a => a.type == AnomalyType.ssl_issue) =
    (detectSslIssues checkId siteId current site
      ((overrides.bind (fun o => o.sslExpiryWarningDays)).getD
        DEFAULT_SSL_EXPIRY_WARNING_DAYS) now).filter
      (fun a => a.type == AnomalyType.ssl_issue) := by
  simp only [detectAnomalies, List.filter_append]
  rw [filter_type_eq_nil (l := detectDowntime checkId siteId current)
      (by intro a ha; rw [mem_detectDowntime_type a ha]; decide),
    filter_type_eq_nil (l := detectSlowResponse checkId siteId current history overrides)
      (by intro a ha; rw [mem_detectSlowResponse_type a ha]; decide),
    filter_type_eq_nil (l := detectStatusCode checkId siteId current)
      (by intro a ha; rw [mem_detectStatusCode_type a ha]; decide),
    filter_type_eq_nil (l := detectContentChange checkId siteId current history)
      (by intro a ha; rw [mem_detectContentChange_type a ha]; decide),
    filter_type_eq_nil (l := detectHeaderAnomalies checkId siteId current history)
      (by intro a ha; rw [mem_detectHeaderAnomalies_type a ha]; decide)]
  simp

/-- C5: a check whose status code is in [500, 599] — so that the derived
`isUp = (statusCode != null && statusCode < 500)` is false — yields exactly
one downtime anomaly, of severity critical, whose description contains the
status code. -/
theorem c5_server_error_downtime (checkId siteId : Nat) (current : Check)
    (history : List Check) (site : Site) (overrides : Option SiteSettingsRow)
    (now : Int) (c : Int)
    (hsc : current.statusCode = some c) (h500 : 500 ≤ c) (h599 : c ≤ 599)
    (hup : current.isUp = some (decide (c < 500))) :
    (detectAnomalies checkId siteId current history site overrides now).filter
        (fun a => a.type == AnomalyType.downtime) =
      [{ checkId := checkId, siteId := siteId, type := AnomalyType.downtime,
         description := "server error: HTTP " ++ toString c,
         severity := Severity.critical }] ∧
    ∃ pre post, "server error: HTTP " ++ toString c = pre ++ toString c ++ post := by
  refine ⟨?_, "server error: HTTP ", "", by simp⟩
  rw [filter_downtime_eq]
  have hfalse : current.isUp = some false := by
    rw [hup]
    congr 1
    simpa using by omega
  simp only [detectDowntime, hfalse, hsc, jsTruthy]
  rw [if_neg (by simp), if_pos h500]
  simp

/-- Concrete check for the C5 witness: Scenario A, a 503 response. -/
def c5check : Check :=
  { id := 2, siteId := 1, statusCode := some 503, responseTimeMs := some 120,
    isUp := some false, errorMessage := none, headersSnapshot := none,
    bodyHash := none, sslValid := none, sslExpiry := none, checkedAt := 0 }

/-- Concrete site for the C5 witness. -/
def c5site : Site :=
  { id := 1, url := "https://example.com", name := "example", isActive := true }

/-- Witness for C5 at Scenario A (`statusCode` 503). -/
theorem c5_server_error_downtime_witness :
    c5check.statusCode = some 503 ∧ (500 : Int) ≤ 503 ∧ (503 : Int) ≤ 599 ∧
    (detectAnomalies 2 1 c5check [] c5site none 0).filter
        (fun a => a.type == AnomalyType.downtime) =
      [{ checkId := 2, siteId := 1, type := AnomalyType.downtime,
         description := "server error: HTTP 503", severity := Severity.critical }] := by
  refine ⟨rfl, by decide, by decide, ?_⟩
  have h := (c5_server_error_downtime 2 1 c5check [] c5site none 0 503 rfl
    (by decide) (by decide) (by decide)).1
  simpa using h

/-- C6: with a non-null current response time, no absolute threshold
override, and a rolling window whose non-null historical response times have
mean `avg`: exceeding `2 * avg` yields exactly one slow_response anomaly,
with severity high iff the time exceeds `4 * avg` and medium otherwise, and
not exceeding `2 * avg` yields no slow_response anomaly. -/
theorem c6_slow_response_rolling_average (checkId siteId : Nat) (current : Check)
    (history : List Check) (site : Site) (overrides : Option SiteSettingsRow)
    (now : Int) (rt : Rat)
    (hrt : current.responseTimeMs = some rt)
    (hov : overrides.bind (fun o => o.responseTimeThreshold) = none)
    (hhist : history.filterMap (fun c => c.responseTimeMs) ≠ []) :
    ((history.filterMap (fun c => c.responseTimeMs)).sum /
          ((history.filterMap (fun c => c.responseTimeMs)).length : Rat) * 2 < rt →
      (detectAnomalies checkId siteId current history site overrides now).filter
          (fun a => a.type == AnomalyType.slow_response) =
        [{ checkId := checkId, siteId := siteId, type := AnomalyType.slow_response,
           description := "response time " ++ toString rt
             ++ "ms exceeds 2x rolling average ("
             ++ toString (round ((history.filterMap (fun c => c.responseTimeMs)).sum /
                  ((history.filterMap (fun c => c.responseTimeMs)).length : Rat))) ++ "ms)",
           severity :=
             if (history.filterMap (fun c => c.responseTimeMs)).sum /
                  ((history.filterMap (fun c => c.responseTimeMs)).length : Rat) * 4 < rt
             then Severity.high else Severity.medium }]) ∧
    (rt ≤ (history.filterMap (fun c => c.responseTimeMs)).sum /
          ((history.filterMap (fun c => c.responseTimeMs)).length : Rat) * 2 →
      (detectAnomalies checkId siteId current history site overrides now).filter
          (fun a => a.type == AnomalyType.slow_response) = []) := by
  have hne : history ≠ [] := by
    intro h
    exact hhist (by simp [h])
  have hlen : history.length > 0 := List.length_pos.mpr hne
  have hlen2 : (history.filterMap (fun c => c.responseTimeMs)).length > 0 :=
    List.length_pos.mpr hhist
  constructor
  · intro hlt
    rw [filter_slow_response_eq]
    have hd : detectSlowResponse checkId siteId current history overrides =
        [{ checkId := checkId, siteId := siteId, type := AnomalyType.slow_response,
           description := "response time " ++ toString rt
             ++ "ms exceeds 2x rolling average ("
             ++ toString (round ((history.filterMap (fun c => c.responseTimeMs)).sum /
                  ((history.filterMap (fun c => c.responseTimeMs)).length : Rat))) ++ "ms)",
           severity :=
             if (history.filterMap (fun c => c.responseTimeMs)).sum /
                  ((history.filterMap (fun c => c.responseTimeMs)).length : Rat) * 4 < rt
             then Severity.high else Severity.medium }] := by
      simp only [detectSlowResponse, hrt, hov, DEFAULT_SLOW_RESPONSE_MULTIPLIER]
      rw [if_pos hlen, if_pos hlen2, if_pos hlt]
    rw [hd]
    simp
  · intro hle
    rw [filter_slow_response_eq]
    have hd : detectSlowResponse checkId siteId current history overrides = [] := by
      simp only [detectSlowResponse, hrt, hov, DEFAULT_SLOW_RESPONSE_MULTIPLIER]
      rw [if_pos hlen, if_pos hlen2, if_neg (not_lt.mpr hle)]
    rw [hd]
    simp

/-- Concrete history for the C6 witness: Scenario B, five prior checks at
100 ms. -/
def c6hist : List Check :=
  List.replicate 5
    { id := 10, siteId := 1, statusCode := some 200, responseTimeMs := some 100,
      isUp := some true, errorMessage := none, headersSnapshot := none,
      bodyHash := none, sslValid := none, sslExpiry := none, checkedAt := 0 }

/-- Concrete current check for the C6 witness: 250 ms. -/
def c6check : Check :=
  { id := 20, siteId := 1, statusCode := some 200, responseTimeMs := some 250,
    isUp := some true, errorMessage := none, headersSnapshot := none,
    bodyHash := none, sslValid := none, sslExpiry := none, checkedAt := 0 }

/-- Witness for C6 at Scenario B: mean 100 ms, current 250 ms, one medium
slow_response anomaly (250 > 200 but 250 < 400). -/
theorem c6_slow_response_rolling_average_witness :
    c6hist.filterMap (fun c => c.responseTimeMs) ≠ [] ∧
    (c6hist.filterMap (fun c => c.responseTimeMs)).sum /
      ((c6hist.filterMap (fun c => c.responseTimeMs)).length : Rat) * 2 < 250 ∧
    (detectAnomalies 20 1 c6check c6hist c5site none 0).filter
        (fun a => a.type == AnomalyType.slow_response) =
      [{ checkId := 20, siteId := 1, type := AnomalyType.slow_response,
         description := "response time 250ms exceeds 2x rolling average (100ms)",
         severity := Severity.medium }] := by
  have hfm : c6hist.filterMap (fun c => c.responseTimeMs) = [100, 100, 100, 100, 100] := rfl
  refine ⟨by rw [hfm]; decide, by rw [hfm]; norm_num, ?_⟩
  have h := (c6_slow_response_rolling_average 20 1 c6check c6hist c5site none 0 250
    rfl rfl (by rw [hfm]; decide)).1 (by rw [hfm]; norm_num)
  rw [h]
  have havg : (c6hist.filterMap (fun c => c.responseTimeMs)).sum /
      ((c6hist.filterMap (fun c => c.responseTimeMs)).length : Rat) = 100 := by
    rw [hfm]; norm_num
  rw [havg]
  have h400 : ¬ ((100 : Rat) * 4 < 250) := by norm_num
  rw [if_neg h400]
  have hround : round (100 : Rat) = (100 : Int) := by norm_num
  rw [hround]
  rfl

/-- C7: on an https site, a check with `sslValid === false` and an
`sslExpiry` inside the warning window yields two ssl_issue records from one
evaluation — one critical for the invalid certificate, and one for the
expiry condition (critical when already expired, high otherwise). -/
theorem c7_ssl_invalid_and_expiring (checkId siteId : Nat) (current : Check)
    (history : List Check) (site : Site) (overrides : Option SiteSettingsRow)
    (now expiry : Int)
    (hhttps : strStartsWith site.url "https://" = true)
    (hvalid : current.sslValid = some false)
    (hexp : current.sslExpiry = some expiry)
    (hwarn : (expiry - now).fdiv (1000 * 60 * 60 * 24) ≤
      (overrides.bind (fun o => o.sslExpiryWarningDays)).getD
        DEFAULT_SSL_EXPIRY_WARNING_DAYS) :
    ∃ d, (detectAnomalies checkId siteId current history site overrides now).filter
        (fun a => a.type == AnomalyType.ssl_issue) =
      [{ checkId := checkId, siteId := siteId, type := AnomalyType.ssl_issue,
         description := "ssl certificate is invalid", severity := Severity.critical },
       { checkId := checkId, siteId := siteId, type := AnomalyType.ssl_issue,
         description := d,
         severity := if (expiry - now).fdiv (1000 * 60 * 60 * 24) ≤ 0
           then Severity.critical else Severity.high }] := by
  rw [filter_ssl_issue_eq]
  by_cases hd0 : (expiry - now).fdiv (1000 * 60 * 60 * 24) ≤ 0
  · refine ⟨"ssl certificate expired "
      ++ toString ((expiry - now).fdiv (1000 * 60 * 60 * 24)).natAbs ++ " days ago", ?_⟩
    rw [if_pos hd0]
    simp only [detectSslIssues, hhttps, hvalid, hexp, if_true]
    rw [if_pos hd0]
    simp
  · refine ⟨"ssl certificate expires in "
      ++ toString ((expiry - now).fdiv (1000 * 60 * 60 * 24)) ++ " days", ?_⟩
    rw [if_neg hd0]
    simp only [detectSslIssues, hhttps, hvalid, hexp, if_true]
    rw [if_neg hd0, if_pos hwarn]
    simp

/-- Concrete check for the C7 witness: https site, invalid certificate that
also expires in 3 days (now = 0, expiry = 3 days + 1 hour in ms). -/
def c7check : Check :=
  { id := 30, siteId := 1, statusCode := some 200, responseTimeMs := some 100,
    isUp := some true, errorMessage := none, headersSnapshot := none,
    bodyHash := none, sslValid := some false, sslExpiry := some 262800000,
    checkedAt := 0 }

/-- Witness for C7: invalid certificate expiring in 3 days on an https site
yields exactly the critical invalid record and the high expiry record. -/
theorem c7_ssl_invalid_and_expiring_witness :
    strStartsWith c5site.url "https://" = true ∧
    c7check.sslValid = some false ∧
    ((262800000 : Int) - 0).fdiv (1000 * 60 * 60 * 24) ≤ (7 : Int) ∧
    ∃ d, (detectAnomalies 30 1 c7check [] c5site none 0).filter
        (fun a => a.type == AnomalyType.ssl_issue) =
      [{ checkId := 30, siteId := 1, type := AnomalyType.ssl_issue,
         description := "ssl certificate is invalid", severity := Severity.critical },
       { checkId := 30, siteId := 1, type := AnomalyType.ssl_issue,
         description := d, severity := Severity.high }] := by
  refine ⟨by decide, rfl, by decide, ?_⟩
  obtain ⟨d, hd⟩ := c7_ssl_invalid_and_expiring 30 1 c7check [] c5site none 0
    262800000 (by decide) rfl rfl (by decide)
  have hsev : (if ((262800000 : Int) - 0).fdiv (1000 * 60 * 60 * 24) ≤ 0
      then Severity.critical else Severity.high) = Severity.high := by decide
  rw [hsev] at hd
  exact ⟨d, hd⟩

/-- Concrete site for the C1 evaluation: active, with a 120 s interval. -/
def c1site : Site :=
  { id := 1, url := "https://slow-check.com", name := "slow-check", isActive := true }

/-- Concrete store for the C1 evaluation: the site was last checked 60 s
before the tick, well inside its configured 120 s interval. -/
def c1db : DB :=
  { sites := [c1site],
    checks := [{ id := 1, siteId := 1, statusCode := some 200, responseTimeMs := some 100,
                 isUp := some true, errorMessage := none, headersSnapshot := none,
                 bodyHash := none, sslValid := none, sslExpiry := none,
                 checkedAt := 940000 }],
    siteSettings := [{ siteId := 1, responseTimeThreshold := none,
                       sslExpiryWarningDays := none, checkInterval := some 120,
                       notifyDowntime := none, notifySlowResponse := none,
                       notifyStatusCode := none, notifyContentChange := none,
                       notifySslIssue := none, notifyHeaderAnomaly := none,
                       severityThreshold := none, escalationThreshold := none }] }

/-- A stub probe outcome (HTTP 200) for the C1 evaluation. -/
def c1probe : String → ProbeResult := fun _ =>
  { statusCode := some 200, responseTimeMs := some 5, isUp := true,
    errorMessage := none, errorCode := none, headersSnapshot := some [],
    bodyHash := some "hash", sslValid := none, sslExpiry := none,
    sslCertificate := none, redirectChain := none }

/-- C1 (evaluation at the failing input): at tick time 1000000 ms the single
active site was last checked 60 s ago and has a 120 s interval, so the
due-site policy of the spec (and of the repository's check-interval tests)
says it must not be probed — yet `runChecks` probes it and inserts a check
row for it, returning count 1. -/
theorem c1_runChecks_probes_not_due_site :
    specSiteIsDue c1db c1site 1000000 = false ∧
    (runChecks c1db c1probe).1 = 1 ∧
    (runChecks c1db c1probe).2.map (fun p => p.1) = [1] :=
  ⟨by decide, rfl, rfl⟩

/-- C4 (evaluation at the failing input): for every network and hash
function, probing the malformed URL "not a url" does not resolve into a
`CheckResult` — the URL constructor's TypeError escapes `performCheck` as a
rejection instead of being caught and turned into a failed check. -/
theorem c4_malformed_url_rejects (net : String → SingleResult)
    (hash : String → String) :
    performCheck net hash "not a url" =
      Except.error (JsError.invalidUrl "not a url") := rfl

/-- One observed redirect step of a network: requesting `u` (which parses as
a URL) succeeds without transport error, carries a 3xx status `s` and a
truthy `location` header, and that location resolves against `u` to `v`. -/
def redirectStepB (net : String → SingleResult) (u : String) (s : Int)
    (v : String) : Bool :=
  (urlScheme u).isSome &&
  ((net u).error == none) &&
  (match (net u).statusCode, headersLocation (net u).headers with
   | some status, some loc =>
     status == s && decide (300 ≤ status ∧ status < 400) && (loc != "") &&
       (resolveLocation loc u == v)
   | _, _ => false)

/-- The next URL a redirect path visits: the first URL of the remaining
hops, or the final target when no hops remain. -/
def pathNext (rest : List (String × Int)) (target : String) : String :=
  match rest with
  | [] => target
  | (u2, _) :: _ => u2

/-- The network redirects along the given (url, status) hops in order,
starting at `cur`, with the last hop redirecting to `target`. -/
def redirectPathB (net : String → SingleResult) :
    String → List (String × Int) → String → Bool
  | cur, [], target => cur == target
  | cur, (u, s) :: rest, target =>
    cur == u && redirectStepB net u s (pathNext rest target) &&
      redirectPathB net (pathNext rest target) rest target

theorem performCheckGo_redirect_loop (net : String → SingleResult)
    (hash : String → String) :
    ∀ (path : List (String × Int)) (fuel : Nat) (visited : List String)
      (chain : List RedirectHop) (start target : String),
    redirectPathB net start path target = true →
    path.length < fuel →
    (∀ p ∈ path, visited.contains p.1 = false) →
    (path.map Prod.fst).Nodup →
    (visited.contains target = true ∨ (path.map Prod.fst).contains target = true) →
    performCheckGo net hash fuel visited chain start =
      Except.ok
        { statusCode := none, responseTimeMs := some 0, isUp := false,
          errorMessage := some ("redirect loop detected: " ++ target ++ " already visited"),
          errorCode := some "REDIRECT_LOOP", headersSnapshot := none, bodyHash := none,
          sslValid := none, sslExpiry := none, sslCertificate := none,
          redirectChain := emptyChainOpt
            (chain ++ path.map (fun p => { url := p.1, statusCode := p.2 })) } := by
  intro path
  induction path with
  | nil =>
    intro fuel visited chain start target hpath hlen hvis hnodup htarget
    have hst : start = target := by simpa [redirectPathB] using hpath
    subst hst
    obtain ⟨f, rfl⟩ : ∃ f, fuel = f + 1 := ⟨fuel - 1, by omega⟩
    have hmem : visited.contains start = true := by
      rcases htarget with h | h
      · exact h
      · simp at h
    simp only [performCheckGo]
    rw [if_pos hmem]
    simp
  | cons p rest ih =>
    intro fuel visited chain start target hpath hlen hvis hnodup htarget
    obtain ⟨u, s⟩ := p
    simp only [redirectPathB, Bool.and_eq_true, beq_iff_eq] at hpath
    obtain ⟨⟨hcur, hstep⟩, hrest⟩ := hpath
    subst hcur
    simp only [redirectStepB, Bool.and_eq_true, beq_iff_eq] at hstep
    obtain ⟨⟨hscheme, herr⟩, hmain⟩ := hstep
    rcases hstc : (net start).statusCode with _ | status
    · rw [hstc] at hmain
      exact absurd hmain (by simp)
    rcases hloc : headersLocation (net start).headers with _ | loc
    · rw [hstc, hloc] at hmain
      exact absurd hmain (by simp)
    rw [hstc, hloc] at hmain
    simp only [Bool.and_eq_true, beq_iff_eq, decide_eq_true_eq, bne_iff_ne] at hmain
    obtain ⟨⟨⟨hss, hrange⟩, hlocne⟩, hres⟩ := hmain
    subst hss
    obtain ⟨f, rfl⟩ : ∃ f, fuel = f + 1 := ⟨fuel - 1, by omega⟩
    have hvisu : visited.contains start = false :=
      hvis (start, status) (List.mem_cons_self _ _)
    obtain ⟨sch, hsch⟩ := Option.isSome_iff_exists.mp hscheme
    have hvisu2 : start ∉ visited := by simpa using hvisu
    simp only [performCheckGo]
    rw [if_neg (by simpa using hvisu2)]
    simp only [singleRequest, hsch, herr, hstc, hloc]
    have hcond : 300 ≤ status ∧ status < 400 ∧ loc ≠ "" := ⟨hrange.1, hrange.2, hlocne⟩
    rw [if_pos hcond]
    have hlen2 : rest.length < f := by
      simp only [List.length_cons] at hlen
      omega
    have hf : ¬ (f = 0) := by omega
    rw [if_neg hf, hres]
    have hnodup2 : (rest.map Prod.fst).Nodup := (List.nodup_cons.mp hnodup).2
    have hvis2 : ∀ p ∈ rest, (start :: visited).contains p.1 = false := by
      intro p hp
      have h1 : p.1 ∉ visited := by simpa using hvis p (List.mem_cons_of_mem _ hp)
      have h2 : p.1 ≠ start := by
        intro he
        exact (List.nodup_cons.mp hnodup).1 (he ▸ List.mem_map.mpr ⟨p, hp, rfl⟩)
      simp [List.contains_cons, h1, h2]
    have htarget2 : (start :: visited).contains target = true ∨
        (rest.map Prod.fst).contains target = true := by
      rcases htarget with h | h
      · have hm : target ∈ visited := by simpa using h
        exact Or.inl (by simp [List.contains_cons, hm])
      · simp only [List.map_cons, List.contains_cons, Bool.or_eq_true, beq_iff_eq] at h
        rcases h with h | h
        · exact Or.inl (by simp [List.contains_cons, h])
        · exact Or.inr h
    have hih := ih f (start :: visited) (chain ++ [{ url := start, statusCode := status }])
      (pathNext rest target) target hrest hlen2 hvis2 hnodup2 htarget2
    rw [hih]
    simp [List.append_assoc]

/-- C3 (amended): a redirect walk that reaches an already-visited URL within
the hop budget — after at most `MAX_REDIRECTS` redirect responses — 
terminates with error code REDIRECT_LOOP and `isUp = false`, preserving the
redirect chain recorded so far. (A walk that would revisit only after a
sixth redirect response, such as Scenario E's A→B→C→D→E→F→B, instead hits
the hop cap and yields TOO_MANY_REDIRECTS; see the counterexample.) -/
theorem c3_redirect_loop_within_cap (net : String → SingleResult)
    (hash : String → String) (path : List (String × Int)) (start target : String)
    (hpath : redirectPathB net start path target = true)
    (hlen : path.length ≤ MAX_REDIRECTS)
    (hnodup : (path.map Prod.fst).Nodup)
    (htarget : (path.map Prod.fst).contains target = true) :
    performCheck net hash start =
      Except.ok
        { statusCode := none, responseTimeMs := some 0, isUp := false,
          errorMessage := some ("redirect loop detected: " ++ target ++ " already visited"),
          errorCode := some "REDIRECT_LOOP", headersSnapshot := none, bodyHash := none,
          sslValid := none, sslExpiry := none, sslCertificate := none,
          redirectChain := emptyChainOpt
            (path.map (fun p => { url := p.1, statusCode := p.2 })) } := by
  have h := performCheckGo_redirect_loop net hash path (MAX_REDIRECTS + 1) [] [] start
    target hpath (Nat.lt_succ_of_le hlen) (by intro p hp; rfl) hnodup (Or.inr htarget)
  simpa [performCheck] using h

/-- A canned redirect response with the given status and location. -/
def redirectResp (s : Int) (loc : String) : SingleResult :=
  { statusCode := some s, headers := [("location", loc)], body := "",
    cert := none, error := none }

/-- A canned plain 200 response. -/
def okResp : SingleResult :=
  { statusCode := some 200, headers := [], body := "", cert := none, error := none }

/-- The network of Scenario E: A→B→C→D→E→F, with F redirecting back to B. -/
def scenarioENet : String → SingleResult := fun u =>
  if u == "https://a.example/" then redirectResp 301 "https://b.example/"
  else if u == "https://b.example/" then redirectResp 301 "https://c.example/"
  else if u == "https://c.example/" then redirectResp 301 "https://d.example/"
  else if u == "https://d.example/" then redirectResp 301 "https://e.example/"
  else if u == "https://e.example/" then redirectResp 301 "https://f.example/"
  else if u == "https://f.example/" then redirectResp 301 "https://b.example/"
  else okResp

/-- C3 counterexample: for the Scenario E sequence A→B→C→D→E→F→B the probe
terminates with TOO_MANY_REDIRECTS, not the claimed REDIRECT_LOOP — the
hop-cap test fires on the sixth redirect response before the loop detection
of the next iteration could see that B was already visited. -/
theorem c3_counterexample :
    (performCheck scenarioENet (fun b => b) "https://a.example/").toOption.map
        (fun r => r.errorCode) = some (some "TOO_MANY_REDIRECTS") ∧
    some (some "TOO_MANY_REDIRECTS") ≠
      (some (some "REDIRECT_LOOP") : Option (Option String)) :=
  ⟨rfl, by decide⟩

/-- A small network redirecting A→B→C with C pointing back to B. -/
def loopNet : String → SingleResult := fun u =>
  if u == "https://a.example/" then redirectResp 301 "https://b.example/"
  else if u == "https://b.example/" then redirectResp 302 "https://c.example/"
  else if u == "https://c.example/" then redirectResp 301 "https://b.example/"
  else okResp

/-- Witness for C3 (amended): the loop A→B→C→B is reached within the hop
budget and yields REDIRECT_LOOP with `isUp = false` and the chain recorded
so far. -/
theorem c3_redirect_loop_within_cap_witness :
    redirectPathB loopNet "https://a.example/"
      [("https://a.example/", 301), ("https://b.example/", 302),
       ("https://c.example/", 301)] "https://b.example/" = true ∧
    ([("https://a.example/", 301), ("https://b.example/", 302),
      ("https://c.example/", 301)].map Prod.fst).Nodup ∧
    performCheck loopNet (fun b => b) "https://a.example/" =
      Except.ok
        { statusCode := none, responseTimeMs := some 0, isUp := false,
          errorMessage := some "redirect loop detected: https://b.example/ already visited",
          errorCode := some "REDIRECT_LOOP", headersSnapshot := none, bodyHash := none,
          sslValid := none, sslExpiry := none, sslCertificate := none,
          redirectChain := some [{ url := "https://a.example/", statusCode := 301 },
            { url := "https://b.example/", statusCode := 302 },
            { url := "https://c.example/", statusCode := 301 }] } := by
  refine ⟨by decide, by decide, ?_⟩
  have h := c3_redirect_loop_within_cap loopNet (fun b => b)
    [("https://a.example/", 301), ("https://b.example/", 302), ("https://c.example/", 301)]
    "https://a.example/" "https://b.example/" (by decide) (by decide) (by decide) (by decide)
  simpa using h

end WDT
